import Mathlib

/-!
Verification of the fallback-merge read protocol of the
terraform-provider-backstage data sources.

The development embeds the two data sources present in the source tree —
the Domain data source (`backstage/data_source_domain.go`) and the API data
source (the unnamed file, an `apiDataSource` of the same package) — as pure
Lean functions.  Terraform framework values (`types.String`) are modelled as
`Option String` (`none` = null), Go nilable maps as `Option (List (String ×
String))`, Go nilable slices as `Option (List _)` (`none` = nil slice), and
a Go nil-pointer dereference as the `none` result of the read function.
-/

/-- Terraform framework `types.String`: `none` models a null value. -/
abbrev TFString := Option String

/-- Go `types.String.ValueString()`: the value, or `""` for a null string. -/
def tfValueString (s : TFString) : String := s.getD ""

/-- Severity of a Terraform diagnostic (`AddError` vs `AddWarning`). -/
inductive Severity where
  | error
  | warning
deriving DecidableEq, BEq

/-- One entry of the `resp.Diagnostics` collection. -/
structure Diagnostic where
  severity : Severity
  summary : String
  detail : String
deriving DecidableEq

/-- Outcome of a data-source `Read`: the accumulated diagnostics, and the
state written by `resp.State.Set` (`none` when the read aborted before
writing state). -/
structure ReadResponse (σ : Type) where
  diagnostics : List Diagnostic
  state : Option σ
deriving DecidableEq

/-- Go `*http.Response`, restricted to the two fields the sources use. -/
structure HTTPResponse where
  statusCode : Nat
  status : String
deriving DecidableEq

/-- Go `http.StatusOK`. -/
def httpStatusOK : Nat := 200

/-- Library constant `backstage.DefaultNamespaceName` of go-backstage
(external collaborator). -/
def defaultNamespaceName : String := "default"

/-- Library constant `backstage.KindDomain` of go-backstage. -/
def kindDomain : String := "Domain"

/-- Library constant `backstage.KindAPI` of go-backstage. -/
def kindAPI : String := "API"

/-! Fetched-entity shapes of the go-backstage client (external library);
field sets are exactly those the two `Read` functions access.  Go `Type`
fields are spelled `type` (lowercase) because `Type` is reserved in Lean. -/

/-- A link of a fetched entity's metadata (go-backstage `EntityLink`). -/
structure EntityLink where
  URL : String
  Title : String
  Icon : String
  type : String
deriving DecidableEq

/-- Target of a fetched relation (go-backstage `EntityRelationTarget`). -/
structure EntityRelationTarget where
  Kind : String
  Name : String
  Namespace : String
deriving DecidableEq

/-- A fetched relation (go-backstage `EntityRelation`). -/
structure EntityRelation where
  type : String
  TargetRef : String
  Target : EntityRelationTarget
deriving DecidableEq

/-- Metadata of a fetched entity (go-backstage `EntityMetadata`).  `Labels`
and `Annotations` are Go maps that may be nil (`none`); `Tags` and `Links`
are slices, which the sources only range over, so a plain list suffices. -/
structure EntityMetadata where
  UID : String
  Etag : String
  Name : String
  Namespace : String
  Title : String
  Description : String
  Labels : Option (List (String × String))
  Annotations : Option (List (String × String))
  Tags : List String
  Links : List EntityLink
deriving DecidableEq

/-- Spec of a fetched Domain entity: the sources access `Spec.Owner`. -/
structure DomainEntitySpec where
  Owner : String
deriving DecidableEq

/-- A fetched Domain entity (result of `d.client.Catalog.Domains.Get`). -/
structure DomainEntity where
  ApiVersion : String
  Kind : String
  Metadata : EntityMetadata
  Relations : List EntityRelation
  Spec : DomainEntitySpec
deriving DecidableEq

/-- Spec of a fetched API entity: the sources access these five fields. -/
structure ApiEntitySpec where
  type : String
  Lifecycle : String
  Owner : String
  Definition : String
  System : String
deriving DecidableEq

/-- A fetched API entity (result of `d.client.Catalog.APIs.Get`). -/
structure ApiEntity where
  ApiVersion : String
  Kind : String
  Metadata : EntityMetadata
  Relations : List EntityRelation
  Spec : ApiEntitySpec
deriving DecidableEq

/-! Terraform state models, mirroring the `tfsdk`-tagged structs of the
sources.  Go maps (`map[string]string`) become `Option (List (String ×
String))` with `none` for a nil map, and Go slices of models become
`Option (List _)` with `none` for a nil slice, because the framework
serializes nil as null and non-nil-empty as an empty collection. -/

/-- Model `entityLinkModel` (shape taken from its uses in the sources). -/
structure entityLinkModel where
  URL : TFString
  Title : TFString
  Icon : TFString
  type : TFString
deriving DecidableEq

/-- Model `entityRelationTargetModel`. -/
structure entityRelationTargetModel where
  Kind : TFString
  Name : TFString
  Namespace : TFString
deriving DecidableEq

/-- Model `entityRelationModel`; `Target` is a Go pointer, hence `Option`. -/
structure entityRelationModel where
  type : TFString
  TargetRef : TFString
  Target : Option entityRelationTargetModel
deriving DecidableEq

/-- Model `entityMetadataModel` (shape taken from its uses in the sources). -/
structure entityMetadataModel where
  UID : TFString
  Etag : TFString
  Name : TFString
  Namespace : TFString
  Title : TFString
  Description : TFString
  Labels : Option (List (String × String))
  Annotations : Option (List (String × String))
  Tags : Option (List TFString)
  Links : Option (List entityLinkModel)
deriving DecidableEq

/-- Model `domainSpecModel`. -/
structure domainSpecModel where
  Owner : TFString
deriving DecidableEq

/-- Model `domainFallbackModel`. -/
structure domainFallbackModel where
  ID : TFString
  Name : TFString
  Namespace : TFString
  ApiVersion : TFString
  Kind : TFString
  Metadata : Option entityMetadataModel
  Relations : Option (List entityRelationModel)
  Spec : Option domainSpecModel
deriving DecidableEq

/-- Model `domainDataSourceModel`. -/
structure domainDataSourceModel where
  ID : TFString
  Name : TFString
  Namespace : TFString
  ApiVersion : TFString
  Kind : TFString
  Metadata : Option entityMetadataModel
  Relations : Option (List entityRelationModel)
  Spec : Option domainSpecModel
  Fallback : Option domainFallbackModel
deriving DecidableEq

/-- Model `apiSpecModel`. -/
structure apiSpecModel where
  type : TFString
  Lifecycle : TFString
  Owner : TFString
  Definition : TFString
  System : TFString
deriving DecidableEq

/-- Model `apiFallbackModel`. -/
structure apiFallbackModel where
  ID : TFString
  Name : TFString
  Namespace : TFString
  ApiVersion : TFString
  Kind : TFString
  Metadata : Option entityMetadataModel
  Relations : Option (List entityRelationModel)
  Spec : Option apiSpecModel
deriving DecidableEq

/-- Model `apiDataSourceModel`. -/
structure apiDataSourceModel where
  ID : TFString
  Name : TFString
  Namespace : TFString
  ApiVersion : TFString
  Kind : TFString
  Metadata : Option entityMetadataModel
  Relations : Option (List entityRelationModel)
  Spec : Option apiSpecModel
  Fallback : Option apiFallbackModel
deriving DecidableEq

/-! Go slice and map primitives as used by the sources. -/

/-- Go `append(s, a)` on a nilable slice: appending to a nil slice
allocates, so the result is always non-nil. -/
def goAppend (s : Option (List α)) (a : α) : Option (List α) :=
  some (s.getD [] ++ [a])

/-- A `for _, v := range xs { s = append(s, f v) }` loop: repeated
`goAppend`; a nil slice stays nil when `xs` is empty. -/
def goAppendAll (s : Option (List α)) (xs : List α) : Option (List α) :=
  xs.foldl goAppend s

/-- Go map assignment `m[k] = v` (replaces the binding of `k` if present). -/
def goMapInsert (m : List (String × String)) (k v : String) :
    List (String × String) :=
  if m.any (fun p => p.1 = k) then
    m.map (fun p => if p.1 = k then (k, v) else p)
  else m ++ [(k, v)]

/-- A `for k, v := range src { dst[k] = v }` loop over a nilable source map
(ranging over a nil map performs no iterations). -/
def goMapInsertAll (dst : List (String × String))
    (src : Option (List (String × String))) : List (String × String) :=
  (src.getD []).foldl (fun acc kv => goMapInsert acc kv.1 kv.2) dst

/-! Embedding of `(*domainDataSource).Read` (data_source_domain.go, lines
194–306).  The `Config.Get` decode and `tflog.Debug` call are elided; the
decoded state is the function's input.  The catalog client is a function
argument `get`, returning the Go triple `(domain, response, err)` with all
three components nilable.  A result of `none` models a run-time panic (a
nil-pointer dereference). -/

/-- Fixed fallback default for an unset `id`. -/
def fallbackDefaultID : String := "123456789"

/-- Fixed fallback default for an unset `api_version`. -/
def fallbackDefaultApiVersion : String := "backstage.io/v1alpha1"

/-- Short diagnostic summary of the Domain `Read` error paths. -/
def domainShortErr : String := "Error reading Backstage Domain kind"

/-- Detail of the Domain diagnostic raised on a non-nil client error. -/
def domainLongErr (state : domainDataSourceModel) (e : String) : String :=
  "Could not read Backstage Domain kind " ++ tfValueString state.Namespace ++
    "/" ++ tfValueString state.Name ++ ": " ++ e

/-- Detail of the Domain diagnostic raised on a non-200 HTTP status. -/
def domainLongStatus (state : domainDataSourceModel) (resp : HTTPResponse) :
    String :=
  "Could not read Backstage Domain kind " ++ tfValueString state.Namespace ++
    "/" ++ tfValueString state.Name ++ ": " ++ resp.status

/-- Back-filling of unset fallback identity fields (lines 229–237): `id`,
`api_version` and `kind` receive the fixed defaults when null. -/
def backfillDomainFallback (fb : domainFallbackModel) : domainFallbackModel :=
  let fb := if fb.ID.isNone then { fb with ID := some fallbackDefaultID } else fb
  let fb :=
    if fb.ApiVersion.isNone then
      { fb with ApiVersion := some fallbackDefaultApiVersion }
    else fb
  if fb.Kind.isNone then { fb with Kind := some kindDomain } else fb

/-- Copy of the back-filled fallback into the working state (lines
238–245); the mutation of `state.Fallback` through the pointer is kept. -/
def domainApplyFallbackState (state : domainDataSourceModel)
    (fb : domainFallbackModel) : domainDataSourceModel :=
  let fb := backfillDomainFallback fb
  { state with
    ID := fb.ID
    Name := fb.Name
    Namespace := fb.Namespace
    ApiVersion := fb.ApiVersion
    Kind := fb.Kind
    Metadata := fb.Metadata
    Relations := fb.Relations
    Spec := fb.Spec
    Fallback := some fb }

/-- Projection of a fetched relation (lines 253–262). -/
def relationProject (i : EntityRelation) : entityRelationModel :=
  { type := some i.type
    TargetRef := some i.TargetRef
    Target := some
      { Kind := some i.Target.Kind
        Name := some i.Target.Name
        Namespace := some i.Target.Namespace } }

/-- Projection of a fetched link (lines 291–298). -/
def linkProject (v : EntityLink) : entityLinkModel :=
  { URL := some v.URL
    Title := some v.Title
    Icon := some v.Icon
    type := some v.type }

/-- Projection of fetched metadata (lines 268–298): the struct literal
allocates empty `Labels`/`Annotations` maps and leaves `Tags`/`Links` nil,
then the four copy loops run. -/
def metadataProject (m : EntityMetadata) : entityMetadataModel :=
  let md : entityMetadataModel :=
    { UID := some m.UID
      Etag := some m.Etag
      Name := some m.Name
      Namespace := some m.Namespace
      Title := some m.Title
      Description := some m.Description
      Annotations := some []
      Labels := some []
      Tags := none
      Links := none }
  let md := { md with Labels := some (goMapInsertAll (md.Labels.getD []) m.Labels) }
  let md := { md with Annotations := some (goMapInsertAll (md.Annotations.getD []) m.Annotations) }
  let md := { md with Tags := goAppendAll md.Tags (m.Tags.map (fun v => some v)) }
  { md with Links := goAppendAll md.Links (m.Links.map linkProject) }

/-- The FetchOK projection of the Domain read (lines 248–299): identity
fields, relations (appended onto the working state's slice), spec and
metadata are overwritten from the fetched entity. -/
def domainProject (state : domainDataSourceModel) (d : DomainEntity) :
    domainDataSourceModel :=
  { state with
    ID := some d.Metadata.UID
    ApiVersion := some d.ApiVersion
    Kind := some d.Kind
    Relations := goAppendAll state.Relations (d.Relations.map relationProject)
    Spec := some { Owner := some d.Spec.Owner }
    Metadata := some (metadataProject d.Metadata) }

/-- Tail of the Domain read after both diagnostic checks (lines 228–305):
the fallback branch, the FetchOK branch, and the final `resp.State.Set`. -/
def domainReadTail (state : domainDataSourceModel) (domain : Option DomainEntity)
    (resp : HTTPResponse) (err : Option String) (diags : List Diagnostic) :
    Option (ReadResponse domainDataSourceModel) :=
  let state1 :=
    match state.Fallback with
    | some fb =>
      if err ≠ none ∨ resp.statusCode ≠ httpStatusOK then
        domainApplyFallbackState state fb
      else state
    | none => state
  if err = none ∧ resp.statusCode = httpStatusOK then
    match domain with
    | none => none
    | some d => some { diagnostics := diags, state := some (domainProject state1 d) }
  else
    some { diagnostics := diags, state := some state1 }

/-- The HTTP-status check of the Domain read (lines 218–226): dereferences
`response` unconditionally (`none` response means a panic), then reports a
fatal error or a warning on a non-200 status. -/
def domainReadStatus (state : domainDataSourceModel)
    (domain : Option DomainEntity) (response : Option HTTPResponse)
    (err : Option String) (diags : List Diagnostic) :
    Option (ReadResponse domainDataSourceModel) :=
  match response with
  | none => none
  | some resp =>
    if resp.statusCode ≠ httpStatusOK then
      match state.Fallback with
      | none =>
        some { diagnostics :=
                 diags ++ [⟨.error, domainShortErr, domainLongStatus state resp⟩]
               state := none }
      | some _ =>
        domainReadTail state domain resp err
          (diags ++ [⟨.warning, domainShortErr, domainLongStatus state resp⟩])
    else domainReadTail state domain resp err diags

/-- The Domain read applied to an already-fetched triple, starting at the
client-error check (lines 208–216). -/
def domainReadCore (state : domainDataSourceModel)
    (domain : Option DomainEntity) (response : Option HTTPResponse)
    (err : Option String) : Option (ReadResponse domainDataSourceModel) :=
  match err with
  | some e =>
    match state.Fallback with
    | none =>
      some { diagnostics := [⟨.error, domainShortErr, domainLongErr state e⟩]
             state := none }
    | some _ =>
      domainReadStatus state domain response (some e)
        [⟨.warning, domainShortErr, domainLongErr state e⟩]
  | none => domainReadStatus state domain response none []

/-- The full `(*domainDataSource).Read`: namespace defaulting (lines
202–204), the client call (line 207), then the remainder of the read. -/
def domainRead (config : domainDataSourceModel)
    (get : String → String →
      Option DomainEntity × Option HTTPResponse × Option String) :
    Option (ReadResponse domainDataSourceModel) :=
  let state :=
    if config.Namespace.isNone then
      { config with Namespace := some defaultNamespaceName }
    else config
  let r := get (tfValueString state.Name) (tfValueString state.Namespace)
  domainReadCore state r.1 r.2.1 r.2.2

/-! Embedding of `(*apiDataSource).Read` (the unnamed source file, lines
210–325), structurally identical to the Domain read but over the API
models, the `backstage.KindAPI` default and the "API" message texts. -/

/-- Short diagnostic summary of the API `Read` error paths. -/
def apiShortErr : String := "Error reading Backstage API kind"

/-- Detail of the API diagnostic raised on a non-nil client error. -/
def apiLongErr (state : apiDataSourceModel) (e : String) : String :=
  "Could not read Backstage API kind " ++ tfValueString state.Namespace ++
    "/" ++ tfValueString state.Name ++ ": " ++ e

/-- Detail of the API diagnostic raised on a non-200 HTTP status. -/
def apiLongStatus (state : apiDataSourceModel) (resp : HTTPResponse) :
    String :=
  "Could not read Backstage API kind " ++ tfValueString state.Namespace ++
    "/" ++ tfValueString state.Name ++ ": " ++ resp.status

/-- Back-filling of unset API fallback identity fields (lines 245–253). -/
def backfillApiFallback (fb : apiFallbackModel) : apiFallbackModel :=
  let fb := if fb.ID.isNone then { fb with ID := some fallbackDefaultID } else fb
  let fb :=
    if fb.ApiVersion.isNone then
      { fb with ApiVersion := some fallbackDefaultApiVersion }
    else fb
  if fb.Kind.isNone then { fb with Kind := some kindAPI } else fb

/-- Copy of the back-filled API fallback into the working state (lines
254–261). -/
def apiApplyFallbackState (state : apiDataSourceModel)
    (fb : apiFallbackModel) : apiDataSourceModel :=
  let fb := backfillApiFallback fb
  { state with
    ID := fb.ID
    Name := fb.Name
    Namespace := fb.Namespace
    ApiVersion := fb.ApiVersion
    Kind := fb.Kind
    Metadata := fb.Metadata
    Relations := fb.Relations
    Spec := fb.Spec
    Fallback := some fb }

/-- The FetchOK projection of the API read (lines 263–318). -/
def apiProject (state : apiDataSourceModel) (a : ApiEntity) :
    apiDataSourceModel :=
  { state with
    ID := some a.Metadata.UID
    ApiVersion := some a.ApiVersion
    Kind := some a.Kind
    Relations := goAppendAll state.Relations (a.Relations.map relationProject)
    Spec := some
      { type := some a.Spec.type
        Lifecycle := some a.Spec.Lifecycle
        Owner := some a.Spec.Owner
        Definition := some a.Spec.Definition
        System := some a.Spec.System }
    Metadata := some (metadataProject a.Metadata) }

/-- Tail of the API read after both diagnostic checks (lines 244–324). -/
def apiReadTail (state : apiDataSourceModel) (api : Option ApiEntity)
    (resp : HTTPResponse) (err : Option String) (diags : List Diagnostic) :
    Option (ReadResponse apiDataSourceModel) :=
  let state1 :=
    match state.Fallback with
    | some fb =>
      if err ≠ none ∨ resp.statusCode ≠ httpStatusOK then
        apiApplyFallbackState state fb
      else state
    | none => state
  if err = none ∧ resp.statusCode = httpStatusOK then
    match api with
    | none => none
    | some a => some { diagnostics := diags, state := some (apiProject state1 a) }
  else
    some { diagnostics := diags, state := some state1 }

/-- The HTTP-status check of the API read (lines 234–242). -/
def apiReadStatus (state : apiDataSourceModel) (api : Option ApiEntity)
    (response : Option HTTPResponse) (err : Option String)
    (diags : List Diagnostic) : Option (ReadResponse apiDataSourceModel) :=
  match response with
  | none => none
  | some resp =>
    if resp.statusCode ≠ httpStatusOK then
      match state.Fallback with
      | none =>
        some { diagnostics :=
                 diags ++ [⟨.error, apiShortErr, apiLongStatus state resp⟩]
               state := none }
      | some _ =>
        apiReadTail state api resp err
          (diags ++ [⟨.warning, apiShortErr, apiLongStatus state resp⟩])
    else apiReadTail state api resp err diags

/-- The API read applied to an already-fetched triple, starting at the
client-error check (lines 224–232). -/
def apiReadCore (state : apiDataSourceModel) (api : Option ApiEntity)
    (response : Option HTTPResponse) (err : Option String) :
    Option (ReadResponse apiDataSourceModel) :=
  match err with
  | some e =>
    match state.Fallback with
    | none =>
      some { diagnostics := [⟨.error, apiShortErr, apiLongErr state e⟩]
             state := none }
    | some _ =>
      apiReadStatus state api response (some e)
        [⟨.warning, apiShortErr, apiLongErr state e⟩]
  | none => apiReadStatus state api response none []

/-- The full `(*apiDataSource).Read`: namespace defaulting (lines
218–220), the client call (line 223), then the remainder of the read. -/
def apiRead (config : apiDataSourceModel)
    (get : String → String →
      Option ApiEntity × Option HTTPResponse × Option String) :
    Option (ReadResponse apiDataSourceModel) :=
  let state :=
    if config.Namespace.isNone then
      { config with Namespace := some defaultNamespaceName }
    else config
  let r := get (tfValueString state.Name) (tfValueString state.Namespace)
  apiReadCore state r.1 r.2.1 r.2.2

/-! Observation helpers over read results. -/

/-- The state a read wrote, if it completed without a panic and wrote one. -/
def stateOf (R : Option (ReadResponse σ)) : Option σ :=
  R.bind (fun out => out.state)

/-- Whether a read completed and reported a fatal error diagnostic. -/
def isFatal (R : Option (ReadResponse σ)) : Bool :=
  match R with
  | none => false
  | some out => out.diagnostics.any (fun d => d.severity == Severity.error)

/-- Whether a read completed and reported a warning diagnostic. -/
def hasWarning (R : Option (ReadResponse σ)) : Bool :=
  match R with
  | none => false
  | some out => out.diagnostics.any (fun d => d.severity == Severity.warning)

/-! Embedding of the two `Schema` methods as declarative attribute trees.
Only the structure relevant to requiredness is kept: attribute kind,
nesting, and the Required/Optional/Computed flag.  Descriptions and string
validators carry no requiredness information and are elided. -/

/-- The Required/Optional/Computed flag of a schema attribute. -/
inductive AttrMode where
  | required
  | optional
  | computed
deriving DecidableEq, BEq

/-- A Terraform schema attribute: string, map, list, single-nested or
list-nested, with its flag and (for nested kinds) its child attributes. -/
inductive SchemaAttr where
  | string (mode : AttrMode)
  | mapAttr (mode : AttrMode)
  | listAttr (mode : AttrMode)
  | single (mode : AttrMode) (attrs : List (String × SchemaAttr))
  | listNested (mode : AttrMode) (attrs : List (String × SchemaAttr))

/-- The flag of an attribute. -/
def SchemaAttr.mode : SchemaAttr → AttrMode
  | .string m => m
  | .mapAttr m => m
  | .listAttr m => m
  | .single m _ => m
  | .listNested m _ => m

/-- The child attributes of a nested attribute (empty for leaf kinds). -/
def SchemaAttr.children : SchemaAttr → List (String × SchemaAttr)
  | .single _ a => a
  | .listNested _ a => a
  | _ => []

/-- Lookup of an attribute by name in an attribute list. -/
def lookupAttr (attrs : List (String × SchemaAttr)) (k : String) :
    Option SchemaAttr :=
  (attrs.find? (fun p => p.1 == k)).map (fun p => p.2)

/-- The `fallback` attribute block of the Domain schema
(data_source_domain.go, lines 127–179).  Its `name` child is declared
`Required: true` in the source (line 129). -/
def domainFallbackAttrs : List (String × SchemaAttr) := [
  ("id", .string .optional),
  ("name", .string .required),
  ("namespace", .string .optional),
  ("api_version", .string .optional),
  ("kind", .string .optional),
  ("metadata", .single .optional [
    ("uid", .string .optional),
    ("etag", .string .optional),
    ("name", .string .optional),
    ("namespace", .string .optional),
    ("title", .string .optional),
    ("description", .string .optional),
    ("labels", .mapAttr .optional),
    ("annotations", .mapAttr .optional),
    ("tags", .listAttr .optional),
    ("links", .listNested .optional [
      ("url", .string .optional),
      ("title", .string .optional),
      ("icon", .string .optional),
      ("type", .string .optional)])]),
  ("relations", .listNested .optional [
    ("type", .string .optional),
    ("target_ref", .string .optional),
    ("target", .single .optional [
      ("name", .string .optional),
      ("kind", .string .optional),
      ("namespace", .string .optional)])]),
  ("spec", .single .optional [
    ("owner", .string .optional)])]

/-- The attribute tree of the Domain data-source schema
(data_source_domain.go, lines 72–181). -/
def domainSchemaAttrs : List (String × SchemaAttr) := [
  ("id", .string .computed),
  ("name", .string .required),
  ("namespace", .string .optional),
  ("api_version", .string .computed),
  ("kind", .string .computed),
  ("metadata", .single .computed [
    ("uid", .string .computed),
    ("etag", .string .computed),
    ("name", .string .computed),
    ("namespace", .string .computed),
    ("title", .string .computed),
    ("description", .string .computed),
    ("labels", .mapAttr .computed),
    ("annotations", .mapAttr .computed),
    ("tags", .listAttr .computed),
    ("links", .listNested .computed [
      ("url", .string .computed),
      ("title", .string .computed),
      ("icon", .string .computed),
      ("type", .string .computed)])]),
  ("relations", .listNested .computed [
    ("type", .string .computed),
    ("target_ref", .string .computed),
    ("target", .single .computed [
      ("name", .string .computed),
      ("kind", .string .computed),
      ("namespace", .string .computed)])]),
  ("spec", .single .computed [
    ("owner", .string .computed)]),
  ("fallback", .single .optional domainFallbackAttrs)]

/-- The `fallback` attribute block of the API schema (unnamed source file,
lines 139–195).  Its `name` child is declared `Optional: true` there
(line 141). -/
def apiFallbackAttrs : List (String × SchemaAttr) := [
  ("id", .string .optional),
  ("name", .string .optional),
  ("namespace", .string .optional),
  ("api_version", .string .optional),
  ("kind", .string .optional),
  ("metadata", .single .optional [
    ("uid", .string .optional),
    ("etag", .string .optional),
    ("name", .string .optional),
    ("namespace", .string .optional),
    ("title", .string .optional),
    ("description", .string .optional),
    ("labels", .mapAttr .optional),
    ("annotations", .mapAttr .optional),
    ("tags", .listAttr .optional),
    ("links", .listNested .optional [
      ("url", .string .optional),
      ("title", .string .optional),
      ("icon", .string .optional),
      ("type", .string .optional)])]),
  ("relations", .listNested .optional [
    ("type", .string .optional),
    ("target_ref", .string .optional),
    ("target", .single .optional [
      ("name", .string .optional),
      ("kind", .string .optional),
      ("namespace", .string .optional)])]),
  ("spec", .single .optional [
    ("type", .string .optional),
    ("lifecycle", .string .optional),
    ("owner", .string .optional),
    ("definition", .string .optional),
    ("system", .string .optional)])]

/-- The attribute tree of the API data-source schema (unnamed source file,
lines 80–197). -/
def apiSchemaAttrs : List (String × SchemaAttr) := [
  ("id", .string .computed),
  ("name", .string .required),
  ("namespace", .string .optional),
  ("api_version", .string .computed),
  ("kind", .string .computed),
  ("metadata", .single .computed [
    ("uid", .string .computed),
    ("etag", .string .computed),
    ("name", .string .computed),
    ("namespace", .string .computed),
    ("title", .string .computed),
    ("description", .string .computed),
    ("labels", .mapAttr .computed),
    ("annotations", .mapAttr .computed),
    ("tags", .listAttr .computed),
    ("links", .listNested .computed [
      ("url", .string .computed),
      ("title", .string .computed),
      ("icon", .string .computed),
      ("type", .string .computed)])]),
  ("relations", .listNested .computed [
    ("type", .string .computed),
    ("target_ref", .string .computed),
    ("target", .single .computed [
      ("name", .string .computed),
      ("kind", .string .computed),
      ("namespace", .string .computed)])]),
  ("spec", .single .computed [
    ("type", .string .computed),
    ("lifecycle", .string .computed),
    ("owner", .string .computed),
    ("definition", .string .computed),
    ("system", .string .computed)]),
  ("fallback", .single .optional apiFallbackAttrs)]

/-! Auxiliary lemmas shared by the claim theorems. -/

theorem goAppendAll_eq {α : Type} (s : Option (List α)) (xs : List α) :
    goAppendAll s xs = if xs.isEmpty then s else some (s.getD [] ++ xs) := by
  induction xs generalizing s with
  | nil => simp [goAppendAll]
  | cons a t ih =>
    have h1 : goAppendAll s (a :: t) = goAppendAll (goAppend s a) t := rfl
    rw [h1, ih]
    cases t with
    | nil => simp [goAppend]
    | cons b u => simp [goAppend]

theorem backfillDomainFallback_ID (fb : domainFallbackModel) :
    (backfillDomainFallback fb).ID =
      if fb.ID.isSome then fb.ID else some fallbackDefaultID := by
  cases hI : fb.ID <;> cases hA : fb.ApiVersion <;> cases hK : fb.Kind <;>
    simp [backfillDomainFallback, hI, hA, hK]

theorem backfillDomainFallback_ApiVersion (fb : domainFallbackModel) :
    (backfillDomainFallback fb).ApiVersion =
      if fb.ApiVersion.isSome then fb.ApiVersion
      else some fallbackDefaultApiVersion := by
  cases hI : fb.ID <;> cases hA : fb.ApiVersion <;> cases hK : fb.Kind <;>
    simp [backfillDomainFallback, hI, hA, hK]

theorem backfillDomainFallback_Kind (fb : domainFallbackModel) :
    (backfillDomainFallback fb).Kind =
      if fb.Kind.isSome then fb.Kind else some kindDomain := by
  cases hI : fb.ID <;> cases hA : fb.ApiVersion <;> cases hK : fb.Kind <;>
    simp [backfillDomainFallback, hI, hA, hK]

theorem backfillDomainFallback_rest (fb : domainFallbackModel) :
    (backfillDomainFallback fb).Name = fb.Name ∧
    (backfillDomainFallback fb).Namespace = fb.Namespace ∧
    (backfillDomainFallback fb).Metadata = fb.Metadata ∧
    (backfillDomainFallback fb).Relations = fb.Relations ∧
    (backfillDomainFallback fb).Spec = fb.Spec := by
  cases hI : fb.ID <;> cases hA : fb.ApiVersion <;> cases hK : fb.Kind <;>
    simp [backfillDomainFallback, hI, hA, hK]

theorem backfillApiFallback_ID (fb : apiFallbackModel) :
    (backfillApiFallback fb).ID =
      if fb.ID.isSome then fb.ID else some fallbackDefaultID := by
  cases hI : fb.ID <;> cases hA : fb.ApiVersion <;> cases hK : fb.Kind <;>
    simp [backfillApiFallback, hI, hA, hK]

theorem backfillApiFallback_ApiVersion (fb : apiFallbackModel) :
    (backfillApiFallback fb).ApiVersion =
      if fb.ApiVersion.isSome then fb.ApiVersion
      else some fallbackDefaultApiVersion := by
  cases hI : fb.ID <;> cases hA : fb.ApiVersion <;> cases hK : fb.Kind <;>
    simp [backfillApiFallback, hI, hA, hK]

theorem backfillApiFallback_Kind (fb : apiFallbackModel) :
    (backfillApiFallback fb).Kind =
      if fb.Kind.isSome then fb.Kind else some kindAPI := by
  cases hI : fb.ID <;> cases hA : fb.ApiVersion <;> cases hK : fb.Kind <;>
    simp [backfillApiFallback, hI, hA, hK]

theorem backfillApiFallback_rest (fb : apiFallbackModel) :
    (backfillApiFallback fb).Name = fb.Name ∧
    (backfillApiFallback fb).Namespace = fb.Namespace ∧
    (backfillApiFallback fb).Metadata = fb.Metadata ∧
    (backfillApiFallback fb).Relations = fb.Relations ∧
    (backfillApiFallback fb).Spec = fb.Spec := by
  cases hI : fb.ID <;> cases hA : fb.ApiVersion <;> cases hK : fb.Kind <;>
    simp [backfillApiFallback, hI, hA, hK]

theorem diag_all_warning_any (dg : List Diagnostic)
    (h1 : dg.all (fun d => d.severity == Severity.warning) = true)
    (h2 : dg ≠ []) :
    dg.any (fun d => d.severity == Severity.warning) = true := by
  cases dg with
  | nil => exact absurd rfl h2
  | cons a t =>
    simp only [List.all_cons, Bool.and_eq_true] at h1
    simp [List.any_cons, h1.1]

theorem diag_all_warning_no_error (dg : List Diagnostic)
    (h1 : dg.all (fun d => d.severity == Severity.warning) = true) :
    dg.any (fun d => d.severity == Severity.error) = false := by
  induction dg with
  | nil => simp
  | cons a t ih =>
    simp only [List.all_cons, Bool.and_eq_true] at h1
    have ha : a.severity = Severity.warning := by
      have hb := h1.1
      cases h : a.severity
      · rw [h] at hb
        exact absurd hb (by decide)
      · rfl
    simp [List.any_cons, ha, ih h1.2]
    decide

theorem domainReadCore_fatal (s : domainDataSourceModel)
    (dom : Option DomainEntity) (resp : HTTPResponse) (err : Option String)
    (hfb : s.Fallback = none)
    (hf : err ≠ none ∨ resp.statusCode ≠ httpStatusOK) :
    ∃ dg, domainReadCore s dom (some resp) err = some ⟨dg, none⟩ ∧
      dg.any (fun d => d.severity == Severity.error) = true := by
  cases err with
  | some e =>
    refine ⟨[⟨.error, domainShortErr, domainLongErr s e⟩], ?_, ?_⟩
    · simp [domainReadCore, hfb]
    · rfl
  | none =>
    have hs : resp.statusCode ≠ httpStatusOK := by
      rcases hf with h | h
      · exact absurd rfl h
      · exact h
    refine ⟨[⟨.error, domainShortErr, domainLongStatus s resp⟩], ?_, ?_⟩
    · simp [domainReadCore, domainReadStatus, hfb, hs]
    · rfl

theorem domainReadCore_ok (s : domainDataSourceModel) (d : DomainEntity)
    (resp : HTTPResponse) (hs : resp.statusCode = httpStatusOK) :
    domainReadCore s (some d) (some resp) none =
      some ⟨[], some (domainProject s d)⟩ := by
  cases hFB : s.Fallback <;>
    simp [domainReadCore, domainReadStatus, domainReadTail, hFB, hs]

theorem domainReadCore_fallback (s : domainDataSourceModel)
    (dom : Option DomainEntity) (resp : HTTPResponse) (err : Option String)
    (fb : domainFallbackModel) (hfb : s.Fallback = some fb)
    (hf : err ≠ none ∨ resp.statusCode ≠ httpStatusOK) :
    ∃ dg, domainReadCore s dom (some resp) err =
        some ⟨dg, some (domainApplyFallbackState s fb)⟩ ∧
      dg ≠ [] ∧ dg.all (fun d => d.severity == Severity.warning) = true := by
  cases err with
  | some e =>
    by_cases hsc : resp.statusCode = httpStatusOK
    · refine ⟨[⟨.warning, domainShortErr, domainLongErr s e⟩], ?_, ?_, ?_⟩
      · simp [domainReadCore, domainReadStatus, domainReadTail, hfb, hsc]
      · simp
      · rfl
    · refine ⟨[⟨.warning, domainShortErr, domainLongErr s e⟩,
               ⟨.warning, domainShortErr, domainLongStatus s resp⟩], ?_, ?_, ?_⟩
      · simp [domainReadCore, domainReadStatus, domainReadTail, hfb, hsc]
      · simp
      · rfl
  | none =>
    have hs : resp.statusCode ≠ httpStatusOK := by
      rcases hf with h | h
      · exact absurd rfl h
      · exact h
    refine ⟨[⟨.warning, domainShortErr, domainLongStatus s resp⟩], ?_, ?_, ?_⟩
    · simp [domainReadCore, domainReadStatus, domainReadTail, hfb, hs]
    · simp
    · rfl

theorem apiReadCore_fatal (s : apiDataSourceModel) (api : Option ApiEntity)
    (resp : HTTPResponse) (err : Option String) (hfb : s.Fallback = none)
    (hf : err ≠ none ∨ resp.statusCode ≠ httpStatusOK) :
    ∃ dg, apiReadCore s api (some resp) err = some ⟨dg, none⟩ ∧
      dg.any (fun d => d.severity == Severity.error) = true := by
  cases err with
  | some e =>
    refine ⟨[⟨.error, apiShortErr, apiLongErr s e⟩], ?_, ?_⟩
    · simp [apiReadCore, hfb]
    · rfl
  | none =>
    have hs : resp.statusCode ≠ httpStatusOK := by
      rcases hf with h | h
      · exact absurd rfl h
      · exact h
    refine ⟨[⟨.error, apiShortErr, apiLongStatus s resp⟩], ?_, ?_⟩
    · simp [apiReadCore, apiReadStatus, hfb, hs]
    · rfl

theorem apiReadCore_ok (s : apiDataSourceModel) (a : ApiEntity)
    (resp : HTTPResponse) (hs : resp.statusCode = httpStatusOK) :
    apiReadCore s (some a) (some resp) none =
      some ⟨[], some (apiProject s a)⟩ := by
  cases hFB : s.Fallback <;>
    simp [apiReadCore, apiReadStatus, apiReadTail, hFB, hs]

theorem apiReadCore_fallback (s : apiDataSourceModel) (api : Option ApiEntity)
    (resp : HTTPResponse) (err : Option String) (fb : apiFallbackModel)
    (hfb : s.Fallback = some fb)
    (hf : err ≠ none ∨ resp.statusCode ≠ httpStatusOK) :
    ∃ dg, apiReadCore s api (some resp) err =
        some ⟨dg, some (apiApplyFallbackState s fb)⟩ ∧
      dg ≠ [] ∧ dg.all (fun d => d.severity == Severity.warning) = true := by
  cases err with
  | some e =>
    by_cases hsc : resp.statusCode = httpStatusOK
    · refine ⟨[⟨.warning, apiShortErr, apiLongErr s e⟩], ?_, ?_, ?_⟩
      · simp [apiReadCore, apiReadStatus, apiReadTail, hfb, hsc]
      · simp
      · rfl
    · refine ⟨[⟨.warning, apiShortErr, apiLongErr s e⟩,
               ⟨.warning, apiShortErr, apiLongStatus s resp⟩], ?_, ?_, ?_⟩
      · simp [apiReadCore, apiReadStatus, apiReadTail, hfb, hsc]
      · simp
      · rfl
  | none =>
    have hs : resp.statusCode ≠ httpStatusOK := by
      rcases hf with h | h
      · exact absurd rfl h
      · exact h
    refine ⟨[⟨.warning, apiShortErr, apiLongStatus s resp⟩], ?_, ?_, ?_⟩
    · simp [apiReadCore, apiReadStatus, apiReadTail, hfb, hs]
    · simp
    · rfl

/-! Concrete sample inputs used by the witness theorems. -/

/-- Sample fetched metadata with nil labels/annotations and no tags/links. -/
def sampleMetadata : EntityMetadata :=
  { UID := "uid-1", Etag := "etag-1", Name := "nm", Namespace := "ns"
    Title := "ttl", Description := "dsc", Labels := none, Annotations := none
    Tags := [], Links := [] }

/-- Sample fetched Domain entity. -/
def sampleDomainEntity : DomainEntity :=
  { ApiVersion := "backstage.io/v1alpha1", Kind := "Domain"
    Metadata := sampleMetadata, Relations := [], Spec := { Owner := "own" } }

/-- Sample fetched API entity. -/
def sampleApiEntity : ApiEntity :=
  { ApiVersion := "backstage.io/v1alpha1", Kind := "API"
    Metadata := sampleMetadata, Relations := []
    Spec := { type := "openapi", Lifecycle := "production", Owner := "own"
              Definition := "df", System := "sys" } }

/-- Sample Domain request state with no fallback and unset namespace. -/
def domainCfg : domainDataSourceModel :=
  { ID := none, Name := some "n", Namespace := none, ApiVersion := none
    Kind := none, Metadata := none, Relations := none, Spec := none
    Fallback := none }

/-- Sample Domain fallback with unset id, api_version, kind, namespace. -/
def domainFb : domainFallbackModel :=
  { ID := none, Name := some "fbname", Namespace := none, ApiVersion := none
    Kind := none, Metadata := none, Relations := none, Spec := none }

/-- Sample Domain request state carrying the sample fallback. -/
def domainCfgFb : domainDataSourceModel := { domainCfg with Fallback := some domainFb }

/-- Sample API request state with no fallback and unset namespace. -/
def apiCfg : apiDataSourceModel :=
  { ID := none, Name := some "n", Namespace := none, ApiVersion := none
    Kind := none, Metadata := none, Relations := none, Spec := none
    Fallback := none }

/-- Sample API fallback with unset id, api_version, kind, namespace. -/
def apiFb : apiFallbackModel :=
  { ID := none, Name := some "fbname", Namespace := none, ApiVersion := none
    Kind := none, Metadata := none, Relations := none, Spec := none }

/-- Sample API request state carrying the sample fallback. -/
def apiCfgFb : apiDataSourceModel := { apiCfg with Fallback := some apiFb }

/-- Sample 200 response. -/
def respOK : HTTPResponse := { statusCode := 200, status := "200 OK" }

/-- Sample 503 response. -/
def resp503 : HTTPResponse := { statusCode := 503, status := "503 Service Unavailable" }

/-- C1: for every read in which the fetch fails (non-nil error or non-200
status) and a fallback is configured, the output id, apiVersion and kind
equal the fallback's values when set and otherwise the fixed defaults
"123456789", "backstage.io/v1alpha1" and the kind's literal tag ("Domain"
resp. "API"); the read completes with a warning and no fatal error. -/
theorem claim1_fallback_identity_defaults :
    (∀ (cfg : domainDataSourceModel) (fb : domainFallbackModel)
        (dom : Option DomainEntity) (resp : HTTPResponse) (err : Option String),
      cfg.Fallback = some fb →
      err ≠ none ∨ resp.statusCode ≠ httpStatusOK →
      (stateOf (domainReadCore cfg dom (some resp) err)).map
          (fun st => (st.ID, st.ApiVersion, st.Kind)) =
        some (if fb.ID.isSome then fb.ID else some "123456789",
              if fb.ApiVersion.isSome then fb.ApiVersion
              else some "backstage.io/v1alpha1",
              if fb.Kind.isSome then fb.Kind else some "Domain") ∧
      isFatal (domainReadCore cfg dom (some resp) err) = false ∧
      hasWarning (domainReadCore cfg dom (some resp) err) = true) ∧
    (∀ (cfg : apiDataSourceModel) (fb : apiFallbackModel)
        (api : Option ApiEntity) (resp : HTTPResponse) (err : Option String),
      cfg.Fallback = some fb →
      err ≠ none ∨ resp.statusCode ≠ httpStatusOK →
      (stateOf (apiReadCore cfg api (some resp) err)).map
          (fun st => (st.ID, st.ApiVersion, st.Kind)) =
        some (if fb.ID.isSome then fb.ID else some "123456789",
              if fb.ApiVersion.isSome then fb.ApiVersion
              else some "backstage.io/v1alpha1",
              if fb.Kind.isSome then fb.Kind else some "API") ∧
      isFatal (apiReadCore cfg api (some resp) err) = false ∧
      hasWarning (apiReadCore cfg api (some resp) err) = true) := by
  constructor
  · intro cfg fb dom resp err hfb hf
    obtain ⟨dg, hEq, hne, hall⟩ := domainReadCore_fallback cfg dom resp err fb hfb hf
    refine ⟨?_, ?_, ?_⟩
    · rw [hEq]
      simp [stateOf, domainApplyFallbackState, backfillDomainFallback_ID,
        backfillDomainFallback_ApiVersion, backfillDomainFallback_Kind,
        fallbackDefaultID, fallbackDefaultApiVersion, kindDomain]
    · rw [hEq]
      exact diag_all_warning_no_error dg hall
    · rw [hEq]
      exact diag_all_warning_any dg hall hne
  · intro cfg fb api resp err hfb hf
    obtain ⟨dg, hEq, hne, hall⟩ := apiReadCore_fallback cfg api resp err fb hfb hf
    refine ⟨?_, ?_, ?_⟩
    · rw [hEq]
      simp [stateOf, apiApplyFallbackState, backfillApiFallback_ID,
        backfillApiFallback_ApiVersion, backfillApiFallback_Kind,
        fallbackDefaultID, fallbackDefaultApiVersion, kindAPI]
    · rw [hEq]
      exact diag_all_warning_no_error dg hall
    · rw [hEq]
      exact diag_all_warning_any dg hall hne

/-- Witness for C1: a 503 response with the sample fallbacks yields the
three fixed defaults, a warning and no fatal error, for both kinds. -/
theorem claim1_witness :
    ((stateOf (domainReadCore domainCfgFb none (some resp503) none)).map
        (fun st => (st.ID, st.ApiVersion, st.Kind)) =
      some (some "123456789", some "backstage.io/v1alpha1", some "Domain") ∧
     isFatal (domainReadCore domainCfgFb none (some resp503) none) = false ∧
     hasWarning (domainReadCore domainCfgFb none (some resp503) none) = true) ∧
    ((stateOf (apiReadCore apiCfgFb none (some resp503) none)).map
        (fun st => (st.ID, st.ApiVersion, st.Kind)) =
      some (some "123456789", some "backstage.io/v1alpha1", some "API") ∧
     isFatal (apiReadCore apiCfgFb none (some resp503) none) = false ∧
     hasWarning (apiReadCore apiCfgFb none (some resp503) none) = true) := by
  constructor
  · have h := claim1_fallback_identity_defaults.1 domainCfgFb domainFb none resp503
      none rfl (Or.inr (by decide))
    simpa [domainFb] using h
  · have h := claim1_fallback_identity_defaults.2 apiCfgFb apiFb none resp503
      none rfl (Or.inr (by decide))
    simpa [apiFb] using h

/-- C2: for every read in which the fetch fails (non-nil error or non-200
status) and no fallback is configured, the read completes (no panic) with a
fatal error diagnostic and writes no output state. -/
theorem claim2_no_fallback_fatal :
    (∀ (cfg : domainDataSourceModel) (dom : Option DomainEntity)
        (resp : HTTPResponse) (err : Option String),
      cfg.Fallback = none →
      err ≠ none ∨ resp.statusCode ≠ httpStatusOK →
      stateOf (domainReadCore cfg dom (some resp) err) = none ∧
      isFatal (domainReadCore cfg dom (some resp) err) = true ∧
      (domainReadCore cfg dom (some resp) err).isSome = true) ∧
    (∀ (cfg : apiDataSourceModel) (api : Option ApiEntity)
        (resp : HTTPResponse) (err : Option String),
      cfg.Fallback = none →
      err ≠ none ∨ resp.statusCode ≠ httpStatusOK →
      stateOf (apiReadCore cfg api (some resp) err) = none ∧
      isFatal (apiReadCore cfg api (some resp) err) = true ∧
      (apiReadCore cfg api (some resp) err).isSome = true) := by
  constructor
  · intro cfg dom resp err hfb hf
    obtain ⟨dg, hEq, hany⟩ := domainReadCore_fatal cfg dom resp err hfb hf
    refine ⟨?_, ?_, ?_⟩
    · rw [hEq]; simp [stateOf]
    · rw [hEq]; exact hany
    · rw [hEq]; rfl
  · intro cfg api resp err hfb hf
    obtain ⟨dg, hEq, hany⟩ := apiReadCore_fatal cfg api resp err hfb hf
    refine ⟨?_, ?_, ?_⟩
    · rw [hEq]; simp [stateOf]
    · rw [hEq]; exact hany
    · rw [hEq]; rfl

/-- Witness for C2: a 503 response without a fallback is fatal and writes
no state, for both kinds. -/
theorem claim2_witness :
    (stateOf (domainReadCore domainCfg none (some resp503) none) = none ∧
     isFatal (domainReadCore domainCfg none (some resp503) none) = true ∧
     (domainReadCore domainCfg none (some resp503) none).isSome = true) ∧
    (stateOf (apiReadCore apiCfg none (some resp503) none) = none ∧
     isFatal (apiReadCore apiCfg none (some resp503) none) = true ∧
     (apiReadCore apiCfg none (some resp503) none).isSome = true) :=
  ⟨claim2_no_fallback_fatal.1 domainCfg none resp503 none rfl (Or.inr (by decide)),
   claim2_no_fallback_fatal.2 apiCfg none resp503 none rfl (Or.inr (by decide))⟩

/-- C3: for every read whose fetch succeeds (nil error, status 200), the
output id equals the fetched entity's metadata.uid, whether or not a
fallback is configured in the request. -/
theorem claim3_id_is_uid :
    (∀ (cfg : domainDataSourceModel) (d : DomainEntity) (resp : HTTPResponse),
      resp.statusCode = httpStatusOK →
      (stateOf (domainReadCore cfg (some d) (some resp) none)).map
          (fun st => st.ID) = some (some d.Metadata.UID)) ∧
    (∀ (cfg : apiDataSourceModel) (a : ApiEntity) (resp : HTTPResponse),
      resp.statusCode = httpStatusOK →
      (stateOf (apiReadCore cfg (some a) (some resp) none)).map
          (fun st => st.ID) = some (some a.Metadata.UID)) := by
  constructor
  · intro cfg d resp hs
    rw [domainReadCore_ok cfg d resp hs]
    simp [stateOf, domainProject]
  · intro cfg a resp hs
    rw [apiReadCore_ok cfg a resp hs]
    simp [stateOf, apiProject]

/-- Witness for C3: a 200 fetch of the sample entities with a fallback
present still reports the fetched uid, for both kinds. -/
theorem claim3_witness :
    (stateOf (domainReadCore domainCfgFb (some sampleDomainEntity) (some respOK) none)).map
        (fun st => st.ID) = some (some "uid-1") ∧
    (stateOf (apiReadCore apiCfgFb (some sampleApiEntity) (some respOK) none)).map
        (fun st => st.ID) = some (some "uid-1") := by
  constructor
  · have h := claim3_id_is_uid.1 domainCfgFb sampleDomainEntity respOK rfl
    simpa [sampleDomainEntity, sampleMetadata] using h
  · have h := claim3_id_is_uid.2 apiCfgFb sampleApiEntity respOK rfl
    simpa [sampleApiEntity, sampleMetadata] using h

/-- C4: every output state takes its identity/metadata/relations/spec
fields from exactly one source.  On a successful fetch all of them are
projections of the fetched entity, even when a fallback is configured (the
hypothesis on the request's relations reflects that the framework decodes
the computed-only `relations` attribute as null).  On a failed fetch with a
configured fallback all of them are the fallback's fields, with only id,
api_version and kind back-filled. -/
theorem claim4_single_source :
    (∀ (cfg : domainDataSourceModel) (d : DomainEntity) (resp : HTTPResponse),
      cfg.Relations = none →
      resp.statusCode = httpStatusOK →
      (stateOf (domainReadCore cfg (some d) (some resp) none)).map
          (fun st => (st.ID, st.ApiVersion, st.Kind, st.Metadata, st.Relations, st.Spec)) =
        some (some d.Metadata.UID, some d.ApiVersion, some d.Kind,
              some (metadataProject d.Metadata),
              goAppendAll none (d.Relations.map relationProject),
              some { Owner := some d.Spec.Owner })) ∧
    (∀ (cfg : domainDataSourceModel) (dom : Option DomainEntity)
        (resp : HTTPResponse) (err : Option String) (fb : domainFallbackModel),
      cfg.Fallback = some fb →
      err ≠ none ∨ resp.statusCode ≠ httpStatusOK →
      (stateOf (domainReadCore cfg dom (some resp) err)).map
          (fun st => (st.ID, st.Name, st.Namespace, st.ApiVersion, st.Kind,
                      st.Metadata, st.Relations, st.Spec)) =
        some ((backfillDomainFallback fb).ID, fb.Name, fb.Namespace,
              (backfillDomainFallback fb).ApiVersion,
              (backfillDomainFallback fb).Kind,
              fb.Metadata, fb.Relations, fb.Spec)) ∧
    (∀ (cfg : apiDataSourceModel) (a : ApiEntity) (resp : HTTPResponse),
      cfg.Relations = none →
      resp.statusCode = httpStatusOK →
      (stateOf (apiReadCore cfg (some a) (some resp) none)).map
          (fun st => (st.ID, st.ApiVersion, st.Kind, st.Metadata, st.Relations, st.Spec)) =
        some (some a.Metadata.UID, some a.ApiVersion, some a.Kind,
              some (metadataProject a.Metadata),
              goAppendAll none (a.Relations.map relationProject),
              some { type := some a.Spec.type, Lifecycle := some a.Spec.Lifecycle,
                     Owner := some a.Spec.Owner, Definition := some a.Spec.Definition,
                     System := some a.Spec.System })) ∧
    (∀ (cfg : apiDataSourceModel) (api : Option ApiEntity)
        (resp : HTTPResponse) (err : Option String) (fb : apiFallbackModel),
      cfg.Fallback = some fb →
      err ≠ none ∨ resp.statusCode ≠ httpStatusOK →
      (stateOf (apiReadCore cfg api (some resp) err)).map
          (fun st => (st.ID, st.Name, st.Namespace, st.ApiVersion, st.Kind,
                      st.Metadata, st.Relations, st.Spec)) =
        some ((backfillApiFallback fb).ID, fb.Name, fb.Namespace,
              (backfillApiFallback fb).ApiVersion, (backfillApiFallback fb).Kind,
              fb.Metadata, fb.Relations, fb.Spec)) := by
  refine ⟨?_, ?_, ?_, ?_⟩
  · intro cfg d resp hrel hs
    rw [domainReadCore_ok cfg d resp hs]
    simp [stateOf, domainProject, hrel]
  · intro cfg dom resp err fb hfb hf
    obtain ⟨dg, hEq, _, _⟩ := domainReadCore_fallback cfg dom resp err fb hfb hf
    obtain ⟨h1, h2, h3, h4, h5⟩ := backfillDomainFallback_rest fb
    rw [hEq]
    simp [stateOf, domainApplyFallbackState, h1, h2, h3, h4, h5]
  · intro cfg a resp hrel hs
    rw [apiReadCore_ok cfg a resp hs]
    simp [stateOf, apiProject, hrel]
  · intro cfg api resp err fb hfb hf
    obtain ⟨dg, hEq, _, _⟩ := apiReadCore_fallback cfg api resp err fb hfb hf
    obtain ⟨h1, h2, h3, h4, h5⟩ := backfillApiFallback_rest fb
    rw [hEq]
    simp [stateOf, apiApplyFallbackState, h1, h2, h3, h4, h5]

/-- Witness for C4: both branches evaluated at the sample inputs, for both
kinds (200 fetch with a fallback present, and 503 with the fallback). -/
theorem claim4_witness :
    ((stateOf (domainReadCore domainCfgFb (some sampleDomainEntity) (some respOK) none)).map
        (fun st => (st.ID, st.ApiVersion, st.Kind, st.Metadata, st.Relations, st.Spec)) =
      some (some "uid-1", some "backstage.io/v1alpha1", some "Domain",
            some (metadataProject sampleMetadata), none, some { Owner := some "own" })) ∧
    ((stateOf (domainReadCore domainCfgFb none (some resp503) none)).map
        (fun st => (st.ID, st.Name, st.Namespace, st.ApiVersion, st.Kind,
                    st.Metadata, st.Relations, st.Spec)) =
      some (some "123456789", some "fbname", none, some "backstage.io/v1alpha1",
            some "Domain", none, none, none)) ∧
    ((stateOf (apiReadCore apiCfgFb (some sampleApiEntity) (some respOK) none)).map
        (fun st => (st.ID, st.ApiVersion, st.Kind, st.Metadata, st.Relations, st.Spec)) =
      some (some "uid-1", some "backstage.io/v1alpha1", some "API",
            some (metadataProject sampleMetadata), none,
            some { type := some "openapi", Lifecycle := some "production",
                   Owner := some "own", Definition := some "df", System := some "sys" })) ∧
    ((stateOf (apiReadCore apiCfgFb none (some resp503) none)).map
        (fun st => (st.ID, st.Name, st.Namespace, st.ApiVersion, st.Kind,
                    st.Metadata, st.Relations, st.Spec)) =
      some (some "123456789", some "fbname", none, some "backstage.io/v1alpha1",
            some "API", none, none, none)) := by
  refine ⟨?_, ?_, ?_, ?_⟩
  · have h := claim4_single_source.1 domainCfgFb sampleDomainEntity respOK rfl rfl
    simpa [sampleDomainEntity, sampleMetadata, goAppendAll] using h
  · have h := claim4_single_source.2.1 domainCfgFb none resp503 none domainFb rfl
      (Or.inr (by decide))
    simpa [domainFb, backfillDomainFallback] using h
  · have h := claim4_single_source.2.2.1 apiCfgFb sampleApiEntity respOK rfl rfl
    simpa [sampleApiEntity, sampleMetadata, goAppendAll] using h
  · have h := claim4_single_source.2.2.2 apiCfgFb none resp503 none apiFb rfl
      (Or.inr (by decide))
    simpa [apiFb, backfillApiFallback] using h

/-- C5: when the catalog client reports a non-nil error and a fallback is
configured, `Read` continues past the error check and dereferences the
HTTP response unconditionally: with a nil response it panics (result
`none`), while any non-nil response completes the read — so totality on
that path rests on the client returning a response alongside its error. -/
theorem claim5_nil_response_panic :
    (∀ (cfg : domainDataSourceModel) (fb : domainFallbackModel)
        (dom : Option DomainEntity) (e : String),
      cfg.Fallback = some fb →
      domainReadCore cfg dom none (some e) = none) ∧
    (∀ (cfg : domainDataSourceModel) (fb : domainFallbackModel)
        (dom : Option DomainEntity) (e : String) (resp : HTTPResponse),
      cfg.Fallback = some fb →
      (domainReadCore cfg dom (some resp) (some e)).isSome = true) ∧
    (∀ (cfg : apiDataSourceModel) (fb : apiFallbackModel)
        (api : Option ApiEntity) (e : String),
      cfg.Fallback = some fb →
      apiReadCore cfg api none (some e) = none) ∧
    (∀ (cfg : apiDataSourceModel) (fb : apiFallbackModel)
        (api : Option ApiEntity) (e : String) (resp : HTTPResponse),
      cfg.Fallback = some fb →
      (apiReadCore cfg api (some resp) (some e)).isSome = true) := by
  refine ⟨?_, ?_, ?_, ?_⟩
  · intro cfg fb dom e hfb
    simp [domainReadCore, domainReadStatus, hfb]
  · intro cfg fb dom e resp hfb
    obtain ⟨dg, hEq, _, _⟩ :=
      domainReadCore_fallback cfg dom resp (some e) fb hfb (Or.inl (by simp))
    rw [hEq]; rfl
  · intro cfg fb api e hfb
    simp [apiReadCore, apiReadStatus, hfb]
  · intro cfg fb api e resp hfb
    obtain ⟨dg, hEq, _, _⟩ :=
      apiReadCore_fallback cfg api resp (some e) fb hfb (Or.inl (by simp))
    rw [hEq]; rfl

/-- Witness for C5: with the sample fallback configured, a nil response
alongside an error panics, and a present 503 response does not. -/
theorem claim5_witness :
    domainReadCore domainCfgFb none none (some "connection refused") = none ∧
    (domainReadCore domainCfgFb none (some resp503) (some "x")).isSome = true ∧
    apiReadCore apiCfgFb none none (some "connection refused") = none ∧
    (apiReadCore apiCfgFb none (some resp503) (some "x")).isSome = true :=
  ⟨claim5_nil_response_panic.1 domainCfgFb domainFb none "connection refused" rfl,
   claim5_nil_response_panic.2.1 domainCfgFb domainFb none "x" resp503 rfl,
   claim5_nil_response_panic.2.2.1 apiCfgFb apiFb none "connection refused" rfl,
   claim5_nil_response_panic.2.2.2 apiCfgFb apiFb none "x" resp503 rfl⟩

/-- C6: when the request leaves the namespace unset, the working state's
namespace is set to the literal "default" before the catalog client is
called — the read's outcome depends on the client only through its value
at the name and the non-empty namespace "default". -/
theorem claim6_namespace_default :
    (∀ (cfg : domainDataSourceModel)
        (g g' : String → String →
          Option DomainEntity × Option HTTPResponse × Option String),
      cfg.Namespace = none →
      g (tfValueString cfg.Name) defaultNamespaceName =
        g' (tfValueString cfg.Name) defaultNamespaceName →
      domainRead cfg g = domainRead cfg g') ∧
    (∀ (cfg : apiDataSourceModel)
        (g g' : String → String →
          Option ApiEntity × Option HTTPResponse × Option String),
      cfg.Namespace = none →
      g (tfValueString cfg.Name) defaultNamespaceName =
        g' (tfValueString cfg.Name) defaultNamespaceName →
      apiRead cfg g = apiRead cfg g') ∧
    defaultNamespaceName = "default" ∧ defaultNamespaceName ≠ "" := by
  refine ⟨?_, ?_, rfl, by decide⟩
  · intro cfg g g' hns hgg
    have h2 : tfValueString (some defaultNamespaceName) = defaultNamespaceName := rfl
    simp only [domainRead, hns, Option.isNone_none, if_true]
    rw [h2, hgg]
  · intro cfg g g' hns hgg
    have h2 : tfValueString (some defaultNamespaceName) = defaultNamespaceName := rfl
    simp only [apiRead, hns, Option.isNone_none, if_true]
    rw [h2, hgg]

/-- Clients used by the C6 witness: one that only answers correctly at
namespace "default", and one that answers everywhere. -/
def getDomainDefOnly : String → String →
    Option DomainEntity × Option HTTPResponse × Option String :=
  fun _ ns =>
    if ns = "default" then (some sampleDomainEntity, some respOK, none)
    else (none, none, some "wrong namespace")

/-- A client answering at every namespace (C6 witness). -/
def getDomainAll : String → String →
    Option DomainEntity × Option HTTPResponse × Option String :=
  fun _ _ => (some sampleDomainEntity, some respOK, none)

/-- API client answering only at namespace "default" (C6 witness). -/
def getApiDefOnly : String → String →
    Option ApiEntity × Option HTTPResponse × Option String :=
  fun _ ns =>
    if ns = "default" then (some sampleApiEntity, some respOK, none)
    else (none, none, some "wrong namespace")

/-- API client answering at every namespace (C6 witness). -/
def getApiAll : String → String →
    Option ApiEntity × Option HTTPResponse × Option String :=
  fun _ _ => (some sampleApiEntity, some respOK, none)

/-- Witness for C6: on a request with unset namespace, the read cannot
distinguish the "default"-only client from the total one. -/
theorem claim6_witness :
    domainRead domainCfg getDomainDefOnly = domainRead domainCfg getDomainAll ∧
    apiRead apiCfg getApiDefOnly = apiRead apiCfg getApiAll :=
  ⟨claim6_namespace_default.1 domainCfg getDomainDefOnly getDomainAll rfl
     (by simp [getDomainDefOnly, getDomainAll, defaultNamespaceName]),
   claim6_namespace_default.2.1 apiCfg getApiDefOnly getApiAll rfl
     (by simp [getApiDefOnly, getApiAll, defaultNamespaceName])⟩

/-- C7: when the fetch succeeds, the output metadata's labels and
annotations are present mappings (possibly empty) — never null — even when
the fetched entity carries nil maps. -/
theorem claim7_labels_annotations_present :
    (∀ (cfg : domainDataSourceModel) (d : DomainEntity) (resp : HTTPResponse),
      resp.statusCode = httpStatusOK →
      ((stateOf (domainReadCore cfg (some d) (some resp) none)).bind
          (fun st => st.Metadata)).map
        (fun m => (m.Labels.isSome, m.Annotations.isSome)) = some (true, true)) ∧
    (∀ (cfg : apiDataSourceModel) (a : ApiEntity) (resp : HTTPResponse),
      resp.statusCode = httpStatusOK →
      ((stateOf (apiReadCore cfg (some a) (some resp) none)).bind
          (fun st => st.Metadata)).map
        (fun m => (m.Labels.isSome, m.Annotations.isSome)) = some (true, true)) := by
  constructor
  · intro cfg d resp hs
    rw [domainReadCore_ok cfg d resp hs]
    simp [stateOf, domainProject, metadataProject]
  · intro cfg a resp hs
    rw [apiReadCore_ok cfg a resp hs]
    simp [stateOf, apiProject, metadataProject]

/-- Witness for C7: the sample entities carry nil labels and annotations,
yet the output maps are present. -/
theorem claim7_witness :
    ((stateOf (domainReadCore domainCfg (some sampleDomainEntity) (some respOK) none)).bind
        (fun st => st.Metadata)).map
      (fun m => (m.Labels.isSome, m.Annotations.isSome)) = some (true, true) ∧
    ((stateOf (apiReadCore apiCfg (some sampleApiEntity) (some respOK) none)).bind
        (fun st => st.Metadata)).map
      (fun m => (m.Labels.isSome, m.Annotations.isSome)) = some (true, true) :=
  ⟨claim7_labels_annotations_present.1 domainCfg sampleDomainEntity respOK rfl,
   claim7_labels_annotations_present.2 apiCfg sampleApiEntity respOK rfl⟩

/-- C8: when the fetch succeeds, the output metadata's tags and links are
null when the source entity has none, and otherwise mirror the source
sequences element by element in order. -/
theorem claim8_tags_links_absent_or_mirrored :
    (∀ (cfg : domainDataSourceModel) (d : DomainEntity) (resp : HTTPResponse),
      resp.statusCode = httpStatusOK →
      ((stateOf (domainReadCore cfg (some d) (some resp) none)).bind
          (fun st => st.Metadata)).map (fun m => (m.Tags, m.Links)) =
        some (if d.Metadata.Tags = [] then none
              else some (d.Metadata.Tags.map (fun v => some v)),
              if d.Metadata.Links = [] then none
              else some (d.Metadata.Links.map linkProject))) ∧
    (∀ (cfg : apiDataSourceModel) (a : ApiEntity) (resp : HTTPResponse),
      resp.statusCode = httpStatusOK →
      ((stateOf (apiReadCore cfg (some a) (some resp) none)).bind
          (fun st => st.Metadata)).map (fun m => (m.Tags, m.Links)) =
        some (if a.Metadata.Tags = [] then none
              else some (a.Metadata.Tags.map (fun v => some v)),
              if a.Metadata.Links = [] then none
              else some (a.Metadata.Links.map linkProject))) := by
  constructor
  · intro cfg d resp hs
    rw [domainReadCore_ok cfg d resp hs]
    cases hT : d.Metadata.Tags <;> cases hL : d.Metadata.Links <;>
      simp [stateOf, domainProject, metadataProject, goAppendAll_eq, hT, hL]
  · intro cfg a resp hs
    rw [apiReadCore_ok cfg a resp hs]
    cases hT : a.Metadata.Tags <;> cases hL : a.Metadata.Links <;>
      simp [stateOf, apiProject, metadataProject, goAppendAll_eq, hT, hL]

/-- Sample fetched metadata with two tags and one link (C8 witness). -/
def sampleMetadataTagged : EntityMetadata :=
  { sampleMetadata with
    Tags := ["t1", "t2"]
    Links := [{ URL := "u", Title := "lt", Icon := "ic", type := "ty" }] }

/-- Sample fetched Domain entity with tags and links (C8 witness). -/
def sampleDomainEntityTagged : DomainEntity :=
  { sampleDomainEntity with Metadata := sampleMetadataTagged }

/-- Sample fetched API entity with tags and links (C8 witness). -/
def sampleApiEntityTagged : ApiEntity :=
  { sampleApiEntity with Metadata := sampleMetadataTagged }

/-- Witness for C8: the tagless sample entity yields null tags/links, and
the tagged one yields the mirrored sequences, for both kinds. -/
theorem claim8_witness :
    ((stateOf (domainReadCore domainCfg (some sampleDomainEntity) (some respOK) none)).bind
        (fun st => st.Metadata)).map (fun m => (m.Tags, m.Links)) =
      some (none, none) ∧
    ((stateOf (domainReadCore domainCfg (some sampleDomainEntityTagged) (some respOK) none)).bind
        (fun st => st.Metadata)).map (fun m => (m.Tags, m.Links)) =
      some (some [some "t1", some "t2"],
            some [{ URL := some "u", Title := some "lt", Icon := some "ic",
                    type := some "ty" }]) ∧
    ((stateOf (apiReadCore apiCfg (some sampleApiEntityTagged) (some respOK) none)).bind
        (fun st => st.Metadata)).map (fun m => (m.Tags, m.Links)) =
      some (some [some "t1", some "t2"],
            some [{ URL := some "u", Title := some "lt", Icon := some "ic",
                    type := some "ty" }]) := by
  refine ⟨?_, ?_, ?_⟩
  · have h := claim8_tags_links_absent_or_mirrored.1 domainCfg sampleDomainEntity respOK rfl
    simpa [sampleDomainEntity, sampleMetadata] using h
  · have h := claim8_tags_links_absent_or_mirrored.1 domainCfg sampleDomainEntityTagged respOK rfl
    simpa [sampleDomainEntityTagged, sampleMetadataTagged, sampleMetadata,
      linkProject] using h
  · have h := claim8_tags_links_absent_or_mirrored.2 apiCfg sampleApiEntityTagged respOK rfl
    simpa [sampleApiEntityTagged, sampleMetadataTagged, sampleMetadata,
      linkProject] using h

/-- C9: on the fallback path the output name and namespace are the
fallback's values verbatim — an unset fallback namespace stays null in the
output even though the request's namespace was defaulted to "default"
before the fetch, and the fixed-default back-fill touches only id,
api_version and kind. -/
theorem claim9_fallback_namespace_verbatim :
    (∀ (cfg : domainDataSourceModel) (fb : domainFallbackModel)
        (g : String → String →
          Option DomainEntity × Option HTTPResponse × Option String)
        (dom : Option DomainEntity) (resp : HTTPResponse) (err : Option String),
      cfg.Namespace = none →
      cfg.Fallback = some fb →
      g (tfValueString cfg.Name) defaultNamespaceName = (dom, some resp, err) →
      err ≠ none ∨ resp.statusCode ≠ httpStatusOK →
      (stateOf (domainRead cfg g)).map (fun st => (st.Name, st.Namespace)) =
        some (fb.Name, fb.Namespace)) ∧
    (∀ (cfg : apiDataSourceModel) (fb : apiFallbackModel)
        (g : String → String →
          Option ApiEntity × Option HTTPResponse × Option String)
        (api : Option ApiEntity) (resp : HTTPResponse) (err : Option String),
      cfg.Namespace = none →
      cfg.Fallback = some fb →
      g (tfValueString cfg.Name) defaultNamespaceName = (api, some resp, err) →
      err ≠ none ∨ resp.statusCode ≠ httpStatusOK →
      (stateOf (apiRead cfg g)).map (fun st => (st.Name, st.Namespace)) =
        some (fb.Name, fb.Namespace)) := by
  constructor
  · intro cfg fb g dom resp err hns hfb hget hf
    have h2 : tfValueString (some defaultNamespaceName) = defaultNamespaceName := rfl
    simp only [domainRead, hns, Option.isNone_none, if_true]
    rw [h2, hget]
    have hfb1 : ({ cfg with Namespace := some defaultNamespaceName } :
        domainDataSourceModel).Fallback = some fb := hfb
    obtain ⟨dg, hEq, _, _⟩ :=
      domainReadCore_fallback _ dom resp err fb hfb1 hf
    rw [hEq]
    obtain ⟨h1, h2', _, _, _⟩ := backfillDomainFallback_rest fb
    simp [stateOf, domainApplyFallbackState, h1, h2']
  · intro cfg fb g api resp err hns hfb hget hf
    have h2 : tfValueString (some defaultNamespaceName) = defaultNamespaceName := rfl
    simp only [apiRead, hns, Option.isNone_none, if_true]
    rw [h2, hget]
    have hfb1 : ({ cfg with Namespace := some defaultNamespaceName } :
        apiDataSourceModel).Fallback = some fb := hfb
    obtain ⟨dg, hEq, _, _⟩ :=
      apiReadCore_fallback _ api resp err fb hfb1 hf
    rw [hEq]
    obtain ⟨h1, h2', _, _, _⟩ := backfillApiFallback_rest fb
    simp [stateOf, apiApplyFallbackState, h1, h2']

/-- Client returning a 503 at every argument (C9 witness). -/
def getDomain503 : String → String →
    Option DomainEntity × Option HTTPResponse × Option String :=
  fun _ _ => (none, some resp503, none)

/-- API client returning a 503 at every argument (C9 witness). -/
def getApi503 : String → String →
    Option ApiEntity × Option HTTPResponse × Option String :=
  fun _ _ => (none, some resp503, none)

/-- Witness for C9: the sample fallbacks leave namespace unset, and the
fallback-path output namespace is null even though the request namespace
was defaulted. -/
theorem claim9_witness :
    (stateOf (domainRead domainCfgFb getDomain503)).map
        (fun st => (st.Name, st.Namespace)) = some (some "fbname", none) ∧
    (stateOf (apiRead apiCfgFb getApi503)).map
        (fun st => (st.Name, st.Namespace)) = some (some "fbname", none) := by
  constructor
  · have h := claim9_fallback_namespace_verbatim.1 domainCfgFb domainFb
      getDomain503 none resp503 none rfl rfl rfl (Or.inr (by decide))
    simpa [domainFb] using h
  · have h := claim9_fallback_namespace_verbatim.2 apiCfgFb apiFb
      getApi503 none resp503 none rfl rfl rfl (Or.inr (by decide))
    simpa [apiFb] using h

/-- C10 counterexample: in the Domain data source's schema the fallback's
`name` attribute is declared Required, not Optional — the claim that every
fallback attribute of every kind, name included, is optional fails for the
Domain kind. -/
theorem claim10_counterexample :
    (lookupAttr domainFallbackAttrs "name").map SchemaAttr.mode =
      some AttrMode.required ∧
    AttrMode.required ≠ AttrMode.optional := by
  exact ⟨rfl, by decide⟩

/-- C10 amended: the fallback block carries the same attribute names as the
entity-level schema (minus `fallback` itself) for both kinds; every
fallback attribute, nested ones included, is optional — except the Domain
kind's fallback `name`, which is required, while the API kind's fallback
`name` is optional. -/
theorem claim10_amended_fallback_optionality :
    domainFallbackAttrs.all
      (fun p => p.1 == "name" || p.2.mode == AttrMode.optional) = true ∧
    (lookupAttr domainFallbackAttrs "name").map SchemaAttr.mode =
      some AttrMode.required ∧
    apiFallbackAttrs.all (fun p => p.2.mode == AttrMode.optional) = true ∧
    domainFallbackAttrs.all
      (fun p => p.2.children.all (fun q => q.2.mode == AttrMode.optional)) = true ∧
    apiFallbackAttrs.all
      (fun p => p.2.children.all (fun q => q.2.mode == AttrMode.optional)) = true ∧
    (lookupAttr domainFallbackAttrs "metadata").map
      (fun a => (lookupAttr a.children "links").map
        (fun l => l.children.all (fun q => q.2.mode == AttrMode.optional))) =
      some (some true) ∧
    (lookupAttr apiFallbackAttrs "metadata").map
      (fun a => (lookupAttr a.children "links").map
        (fun l => l.children.all (fun q => q.2.mode == AttrMode.optional))) =
      some (some true) ∧
    domainFallbackAttrs.map Prod.fst =
      ["id", "name", "namespace", "api_version", "kind", "metadata",
       "relations", "spec"] ∧
    apiFallbackAttrs.map Prod.fst =
      ["id", "name", "namespace", "api_version", "kind", "metadata",
       "relations", "spec"] ∧
    domainSchemaAttrs.map Prod.fst =
      ["id", "name", "namespace", "api_version", "kind", "metadata",
       "relations", "spec", "fallback"] ∧
    apiSchemaAttrs.map Prod.fst =
      ["id", "name", "namespace", "api_version", "kind", "metadata",
       "relations", "spec", "fallback"] := by
  refine ⟨?_, ?_, ?_, ?_, ?_, ?_, ?_, ?_, ?_, ?_, ?_⟩ <;> rfl
